import Mathlib

/-!
Shallow embedding of the Health-Bridge client components
(AppointmentBooking, MedicalRecords, DiagnosisNotes, PatientList).
Each React component is modelled as a state structure plus pure handler
functions; calls to the toast helper are modelled as emitted Toast events.
-/

/-- A toast notification emitted by a handler (models toast.error,
toast.success and toast.info from the ui toast helper). -/
inductive Toast where
  | error (msg : String)
  | success (msg : String)
  | info (msg : String)
deriving DecidableEq

/-- Ambient values read from the JavaScript environment by the handlers:
Date.now().toString() and the date part of new Date().toISOString(). -/
structure JsEnv where
  nowId : String
  today : String
deriving DecidableEq

/-- Prefix test on character lists: does the second list start with the first. -/
def charsStartWith : List Char → List Char → Bool
  | [], _ => true
  | _ :: _, [] => false
  | p :: ps, c :: cs => p == c && charsStartWith ps cs

/-- Substring occurrence test on character lists. -/
def charsContains (pat : List Char) : List Char → Bool
  | [] => pat.isEmpty
  | c :: cs => charsStartWith pat (c :: cs) || charsContains pat cs

/-- Models the JavaScript String.prototype.includes substring test. -/
def strIncludes (s pat : String) : Bool :=
  charsContains pat.toList s.toList

/-- Models the JavaScript String.prototype.toLowerCase on the ASCII data
used by this application. -/
def jsToLower (s : String) : String :=
  ⟨s.data.map Char.toLower⟩

namespace MedicalRecords

/-- A medical record as stored in the records array of MedicalRecords. -/
structure MedicalRecord where
  id : String
  name : String
  type : String
  date : String
  size : String
  uploadedBy : String
deriving DecidableEq

/-- The mockRecords array the component state is initialised with. -/
def mockRecords : List MedicalRecord :=
  [ { id := "1", name := "Blood Test Report", type := "PDF",
      date := "2024-01-15", size := "2.4 MB", uploadedBy := "Dr. Sarah Wilson" },
    { id := "2", name := "X-Ray Chest", type := "JPG",
      date := "2024-01-10", size := "1.8 MB", uploadedBy := "Dr. Michael Chen" },
    { id := "3", name := "Prescription", type := "PDF",
      date := "2024-01-08", size := "456 KB", uploadedBy := "Dr. Emily Rodriguez" } ]

/-- The local state of the MedicalRecords component. -/
structure State where
  records : List MedicalRecord
  dragActive : Bool
  showUploadModal : Bool
deriving DecidableEq

/-- A browser File as far as handleFileUpload inspects it: name, MIME type
and size in bytes. -/
structure MedFile where
  name : String
  type : String
  size : Nat
deriving DecidableEq

/-- The allowedTypes array of handleFileUpload. -/
def allowedTypes : List String :=
  ["application/pdf", "image/jpeg", "image/png", "image/jpg"]

/-- The size label of a new record: models the source template literal that
renders file.size / 1024 / 1024 to one decimal place followed by " MB"
(rounding half up on the exact value). -/
def formatSizeMB (size : Nat) : String :=
  let tenths := (size * 10 + 512 * 1024) / (1024 * 1024)
  toString (tenths / 10) ++ "." ++ toString (tenths % 10) ++ " MB"

/-- The newRecord object constructed by handleFileUpload for an accepted
file. -/
def mkNewRecord (env : JsEnv) (file : MedFile) : MedicalRecord :=
  { id := env.nowId
    name := file.name
    type := if strIncludes file.type "pdf" then "PDF" else "JPG"
    date := env.today
    size := formatSizeMB file.size
    uploadedBy := "Self" }

/-- handleFileUpload: the argument is the FileList (none models a null
FileList). Validates the first file and either emits an error toast,
leaving the state unchanged, or builds the new record, stores it in front
of the existing ones, closes the modal and emits a success toast. -/
def handleFileUpload (env : JsEnv) (files : Option (List MedFile)) (s : State) :
    State × List Toast :=
  match files with
  | none => (s, [])
  | some [] => (s, [])
  | some (file :: _) =>
    if file.type ∉ allowedTypes then
      (s, [Toast.error "Please upload only PDF, JPG, or PNG files"])
    else if 10 * 1024 * 1024 < file.size then
      (s, [Toast.error "File size must be less than 10MB"])
    else
      ({ s with records := mkNewRecord env file :: s.records, showUploadModal := false },
        [Toast.success "Medical record uploaded successfully!"])

/-- handleDelete: keeps exactly the records whose id differs from the given
one and emits a success toast. -/
def handleDelete (id : String) (s : State) : State × List Toast :=
  ({ s with records := s.records.filter (fun record => record.id != id) },
    [Toast.success "Record deleted successfully"])

end MedicalRecords

namespace AppointmentBooking

/-- A doctor entry of the doctors array. The source stores the rating as a
decimal number (4.9 etc.); it is kept here as tenths to stay within exact
arithmetic. -/
structure Doctor where
  id : String
  name : String
  specialty : String
  ratingTenths : Nat
  fee : Nat
deriving DecidableEq

/-- The doctors array offered for selection. -/
def doctors : List Doctor :=
  [ { id := "1", name := "Dr. Sarah Wilson", specialty := "Cardiology", ratingTenths := 49, fee := 150 },
    { id := "2", name := "Dr. Michael Chen", specialty := "Neurology", ratingTenths := 48, fee := 180 },
    { id := "3", name := "Dr. Emily Rodriguez", specialty := "Dermatology", ratingTenths := 47, fee := 120 },
    { id := "4", name := "Dr. David Kim", specialty := "Orthopedics", ratingTenths := 49, fee := 200 } ]

/-- The timeSlots array offered for selection. -/
def timeSlots : List String :=
  [ "09:00 AM", "09:30 AM", "10:00 AM", "10:30 AM",
    "02:00 PM", "02:30 PM", "03:00 PM", "03:30 PM",
    "04:00 PM", "04:30 PM", "05:00 PM", "05:30 PM" ]

/-- The local state of the AppointmentBooking component. -/
structure State where
  selectedDoctor : String
  selectedDate : String
  selectedTime : String
  showPayment : Bool
  paymentComplete : Bool
deriving DecidableEq

/-- handleBookAppointment: a missing (empty, hence falsy) selection yields
an error toast and leaves the state unchanged; otherwise the payment view
is shown. -/
def handleBookAppointment (s : State) : State × List Toast :=
  if s.selectedDoctor = "" ∨ s.selectedDate = "" ∨ s.selectedTime = "" then
    (s, [Toast.error "Please fill in all required fields"])
  else
    ({ s with showPayment := true }, [])

/-- A timer scheduled through setTimeout: its delay in milliseconds and the
state transition its callback performs when it fires. -/
structure Timer where
  delayMs : Nat
  callback : State → State × List Toast

/-- handlePayment: schedules the single fixed two second timer that marks
the payment complete and emits the success toast. -/
def handlePayment : List Timer :=
  [ { delayMs := 2000,
      callback := fun s =>
        ({ s with paymentComplete := true },
          [Toast.success "Appointment booked successfully!"]) } ]

end AppointmentBooking

namespace DiagnosisNotes

/-- A diagnosis entry as stored in the diagnoses array of DiagnosisNotes. -/
structure Diagnosis where
  id : String
  patientName : String
  patientId : String
  date : String
  diagnosis : String
  symptoms : String
  treatment : String
  notes : String
  prescriptions : List String
  followUp : String
deriving DecidableEq

/-- The mockDiagnoses array the component state is initialised with. -/
def mockDiagnoses : List Diagnosis :=
  [ { id := "1", patientName := "John Doe", patientId := "1", date := "2024-01-15",
      diagnosis := "Hypertension",
      symptoms := "Elevated blood pressure readings, headaches, dizziness",
      treatment := "Prescribed ACE inhibitor, lifestyle modifications including diet and exercise",
      notes := "Patient should monitor blood pressure daily and return for follow-up in 2 weeks",
      prescriptions := ["Lisinopril 10mg - Take once daily", "Low sodium diet",
        "Regular exercise 30min/day"],
      followUp := "2024-01-29" },
    { id := "2", patientName := "Jane Smith", patientId := "2", date := "2024-01-18",
      diagnosis := "Type 2 Diabetes",
      symptoms := "Frequent urination, increased thirst, fatigue",
      treatment := "Metformin therapy, dietary counseling, glucose monitoring",
      notes := "Patient education on diabetes management provided. Referral to nutritionist scheduled",
      prescriptions := ["Metformin 500mg - Take twice daily with meals",
        "Blood glucose monitor", "Diabetic diet plan"],
      followUp := "2024-02-01" } ]

/-- The formData object collected by the add/edit form. -/
structure FormData where
  patientName : String
  patientId : String
  diagnosis : String
  symptoms : String
  treatment : String
  notes : String
  prescriptions : List String
  followUp : String
deriving DecidableEq

/-- The blank formData the form is reset to. -/
def emptyFormData : FormData :=
  { patientName := "", patientId := "", diagnosis := "", symptoms := "",
    treatment := "", notes := "", prescriptions := [""], followUp := "" }

/-- The local state of the DiagnosisNotes component. -/
structure State where
  diagnoses : List Diagnosis
  searchTerm : String
  showAddForm : Bool
  editingDiagnosis : Option Diagnosis
  formData : FormData
deriving DecidableEq

/-- The diagnosis object built by handleSubmit from the form data, the
given id and the given date. -/
def diagnosisOfForm (f : FormData) (id date : String) : Diagnosis :=
  { id := id, patientName := f.patientName, patientId := f.patientId, date := date,
    diagnosis := f.diagnosis, symptoms := f.symptoms, treatment := f.treatment,
    notes := f.notes, prescriptions := f.prescriptions, followUp := f.followUp }

/-- handleSubmit: when editing, replaces the diagnosis with the matching id
by the form data (keeping its id and date); otherwise puts the new
diagnosis in front of the existing ones. In both cases the form is closed
and reset and a success toast is emitted. -/
def handleSubmit (env : JsEnv) (s : State) : State × List Toast :=
  match s.editingDiagnosis with
  | some editing =>
      ({ s with
          diagnoses := s.diagnoses.map (fun d =>
            if d.id == editing.id then diagnosisOfForm s.formData editing.id editing.date
            else d),
          editingDiagnosis := none, showAddForm := false, formData := emptyFormData },
        [Toast.success "Diagnosis updated successfully!"])
  | none =>
      ({ s with
          diagnoses := diagnosisOfForm s.formData env.nowId env.today :: s.diagnoses,
          showAddForm := false, formData := emptyFormData },
        [Toast.success "Diagnosis added successfully!"])

/-- filteredDiagnoses: the diagnoses whose patientName or diagnosis contains
the search term case-insensitively. -/
def filteredDiagnoses (searchTerm : String) (diagnoses : List Diagnosis) : List Diagnosis :=
  diagnoses.filter (fun d =>
    strIncludes (jsToLower d.patientName) (jsToLower searchTerm) ||
    strIncludes (jsToLower d.diagnosis) (jsToLower searchTerm))

end DiagnosisNotes

namespace PatientList

/-- A patient entry as stored in the patients array of PatientList. -/
structure Patient where
  id : String
  name : String
  age : Nat
  gender : String
  email : String
  phone : String
  lastVisit : String
  condition : String
  status : String
deriving DecidableEq

/-- The mockPatients array the component state is initialised with. -/
def mockPatients : List Patient :=
  [ { id := "1", name := "John Doe", age := 34, gender := "Male",
      email := "john@example.com", phone := "+1 (555) 123-4567",
      lastVisit := "2024-01-15", condition := "Hypertension", status := "Active" },
    { id := "2", name := "Jane Smith", age := 28, gender := "Female",
      email := "jane@example.com", phone := "+1 (555) 987-6543",
      lastVisit := "2024-01-18", condition := "Diabetes", status := "Active" },
    { id := "3", name := "Bob Johnson", age := 45, gender := "Male",
      email := "bob@example.com", phone := "+1 (555) 456-7890",
      lastVisit := "2024-01-10", condition := "Arthritis", status := "Follow-up" },
    { id := "4", name := "Alice Brown", age := 52, gender := "Female",
      email := "alice@example.com", phone := "+1 (555) 321-0987",
      lastVisit := "2024-01-12", condition := "Migraine", status := "Active" } ]

/-- filteredPatients: the patients whose name, email or condition contains
the search term case-insensitively. -/
def filteredPatients (searchTerm : String) (patients : List Patient) : List Patient :=
  patients.filter (fun patient =>
    strIncludes (jsToLower patient.name) (jsToLower searchTerm) ||
    strIncludes (jsToLower patient.email) (jsToLower searchTerm) ||
    strIncludes (jsToLower patient.condition) (jsToLower searchTerm))

end PatientList

/-! Concrete fixtures used by witnesses and counterexamples. -/

/-- A sample JavaScript environment. -/
def env0 : JsEnv := { nowId := "1736899200000", today := "2025-01-11" }

/-- A 2 MB PDF file with an allowed MIME type. -/
def pdfFile : MedicalRecords.MedFile :=
  { name := "report.pdf", type := "application/pdf", size := 2 * 1024 * 1024 }

/-- An oversized file whose MIME type is not allowed. -/
def bigTextFile : MedicalRecords.MedFile :=
  { name := "notes.txt", type := "text/plain", size := 10 * 1024 * 1024 + 1 }

/-- An oversized file with an allowed MIME type. -/
def bigPdfFile : MedicalRecords.MedFile :=
  { name := "scan.pdf", type := "application/pdf", size := 10 * 1024 * 1024 + 1 }

/-- A small file whose MIME type is not allowed. -/
def docFile : MedicalRecords.MedFile :=
  { name := "summary.docx", type := "application/msword", size := 1024 }

/-- A PNG file of exactly 10 MB. -/
def pngTenMB : MedicalRecords.MedFile :=
  { name := "scan.png", type := "image/png", size := 10 * 1024 * 1024 }

/-- A MedicalRecords state holding the mock records with the upload modal
open. -/
def mrState0 : MedicalRecords.State :=
  { records := MedicalRecords.mockRecords, dragActive := false, showUploadModal := true }

/-- An AppointmentBooking state with every selection filled in. -/
def abStateFull : AppointmentBooking.State :=
  { selectedDoctor := "1", selectedDate := "2025-01-20", selectedTime := "09:00 AM",
    showPayment := false, paymentComplete := false }

/-- An AppointmentBooking state with no doctor selected. -/
def abStateNoDoctor : AppointmentBooking.State :=
  { selectedDoctor := "", selectedDate := "2025-01-20", selectedTime := "09:00 AM",
    showPayment := false, paymentComplete := false }

/-- A filled-in diagnosis form. -/
def sampleForm : DiagnosisNotes.FormData :=
  { patientName := "John Doe", patientId := "1", diagnosis := "Seasonal flu",
    symptoms := "Fever and cough", treatment := "Rest and fluids", notes := "",
    prescriptions := ["Paracetamol 500mg"], followUp := "2025-01-25" }

/-- A DiagnosisNotes state about to save a new (not edited) diagnosis. -/
def dnState0 : DiagnosisNotes.State :=
  { diagnoses := DiagnosisNotes.mockDiagnoses, searchTerm := "", showAddForm := true,
    editingDiagnosis := none, formData := sampleForm }

/-! Helper lemmas. -/

theorem charsContains_nil_pat (l : List Char) : charsContains [] l = true := by
  cases l <;> simp [charsContains, charsStartWith]

theorem strIncludes_empty (s : String) : strIncludes s "" = true := by
  have h : ("" : String).toList = [] := rfl
  unfold strIncludes
  rw [h, charsContains_nil_pat]

theorem jsToLower_empty : jsToLower "" = "" := rfl

/-! Claim theorems. -/

/-- Claim C2: with doctor, date and time all selected (non-empty),
handleBookAppointment advances to the payment view (showPayment becomes
true) and emits no toast at all, in particular no error toast. -/
theorem bookAppointment_complete_shows_payment (s : AppointmentBooking.State)
    (hdoc : s.selectedDoctor ≠ "") (hdate : s.selectedDate ≠ "")
    (htime : s.selectedTime ≠ "") :
    AppointmentBooking.handleBookAppointment s = ({ s with showPayment := true }, []) := by
  simp [AppointmentBooking.handleBookAppointment, hdoc, hdate, htime]

/-- Witness for C2 at a fully filled-in booking state. -/
theorem bookAppointment_complete_shows_payment_w :
    abStateFull.selectedDoctor ≠ "" ∧ abStateFull.selectedDate ≠ "" ∧
    abStateFull.selectedTime ≠ "" ∧
    AppointmentBooking.handleBookAppointment abStateFull =
      ({ abStateFull with showPayment := true }, []) :=
  ⟨by decide, by decide, by decide,
    bookAppointment_complete_shows_payment abStateFull (by decide) (by decide) (by decide)⟩

/-- Claim C5: with a missing (empty) doctor, date or time selection,
handleBookAppointment emits the required-fields error toast and leaves the
whole state unchanged, so showPayment stays false when it was false and no
selection changes. -/
theorem bookAppointment_missing_field_error (s : AppointmentBooking.State)
    (h : s.selectedDoctor = "" ∨ s.selectedDate = "" ∨ s.selectedTime = "") :
    AppointmentBooking.handleBookAppointment s =
      (s, [Toast.error "Please fill in all required fields"]) := by
  unfold AppointmentBooking.handleBookAppointment
  rw [if_pos h]

/-- Witness for C5 at a state with no doctor selected. -/
theorem bookAppointment_missing_field_error_w :
    (abStateNoDoctor.selectedDoctor = "" ∨ abStateNoDoctor.selectedDate = "" ∨
      abStateNoDoctor.selectedTime = "") ∧
    AppointmentBooking.handleBookAppointment abStateNoDoctor =
      (abStateNoDoctor, [Toast.error "Please fill in all required fields"]) :=
  ⟨Or.inl rfl, bookAppointment_missing_field_error abStateNoDoctor (Or.inl rfl)⟩

/-- Claim C1 counterexample: an oversized file whose MIME type is not
allowed is rejected by the earlier file-type check, so the toast shown is
the file-type error, not the size error the claim promises for every
oversized file. -/
theorem upload_oversize_toast_cex :
    10 * 1024 * 1024 < bigTextFile.size ∧
    (MedicalRecords.handleFileUpload env0 (some [bigTextFile]) mrState0).2
      ≠ [Toast.error "File size must be less than 10MB"] := by
  decide

/-- Claim C1 (amended): a file with an allowed MIME type whose size is
strictly greater than 10 MB is rejected with the size error toast and the
state, in particular the records list, is exactly unchanged. -/
theorem upload_oversize_rejected (env : JsEnv) (file : MedicalRecords.MedFile)
    (rest : List MedicalRecords.MedFile) (s : MedicalRecords.State)
    (hty : file.type ∈ MedicalRecords.allowedTypes)
    (hsz : 10 * 1024 * 1024 < file.size) :
    MedicalRecords.handleFileUpload env (some (file :: rest)) s =
      (s, [Toast.error "File size must be less than 10MB"]) := by
  simp [MedicalRecords.handleFileUpload, hty, hsz]

/-- Witness for the amended C1 at an oversized PDF file. -/
theorem upload_oversize_rejected_w :
    bigPdfFile.type ∈ MedicalRecords.allowedTypes ∧
    10 * 1024 * 1024 < bigPdfFile.size ∧
    MedicalRecords.handleFileUpload env0 (some [bigPdfFile]) mrState0 =
      (mrState0, [Toast.error "File size must be less than 10MB"]) :=
  ⟨by decide, by decide,
    upload_oversize_rejected env0 bigPdfFile [] mrState0 (by decide) (by decide)⟩

/-- Claim C3: a file whose MIME type is not among the allowed ones is
rejected with the file-type error toast and the state, in particular the
records list, is exactly unchanged. -/
theorem upload_bad_type_rejected (env : JsEnv) (file : MedicalRecords.MedFile)
    (rest : List MedicalRecords.MedFile) (s : MedicalRecords.State)
    (hty : file.type ∉ MedicalRecords.allowedTypes) :
    MedicalRecords.handleFileUpload env (some (file :: rest)) s =
      (s, [Toast.error "Please upload only PDF, JPG, or PNG files"]) := by
  simp [MedicalRecords.handleFileUpload, hty]

/-- Witness for C3 at a Word document. -/
theorem upload_bad_type_rejected_w :
    docFile.type ∉ MedicalRecords.allowedTypes ∧
    MedicalRecords.handleFileUpload env0 (some [docFile]) mrState0 =
      (mrState0, [Toast.error "Please upload only PDF, JPG, or PNG files"]) :=
  ⟨by decide, upload_bad_type_rejected env0 docFile [] mrState0 (by decide)⟩

/-- Claim C4 counterexample: an accepted upload does not append the new
record after the existing ones; at this concrete input the resulting list
differs from the existing records followed by the new one. -/
theorem entries_append_cex :
    pdfFile.type ∈ MedicalRecords.allowedTypes ∧
    pdfFile.size ≤ 10 * 1024 * 1024 ∧
    (MedicalRecords.handleFileUpload env0 (some [pdfFile]) mrState0).1.records
      ≠ mrState0.records ++ [MedicalRecords.mkNewRecord env0 pdfFile] := by
  decide

/-- Claim C4 (amended): an accepted upload and a newly saved (not edited)
diagnosis each prepend the newly constructed entry in front of the existing
elements, which are preserved in order, and then emit a success toast. -/
theorem entries_prepended (env env2 : JsEnv) (file : MedicalRecords.MedFile)
    (rest : List MedicalRecords.MedFile) (s : MedicalRecords.State)
    (ds : DiagnosisNotes.State)
    (hty : file.type ∈ MedicalRecords.allowedTypes)
    (hsz : file.size ≤ 10 * 1024 * 1024)
    (hed : ds.editingDiagnosis = none) :
    (MedicalRecords.handleFileUpload env (some (file :: rest)) s).1.records
        = MedicalRecords.mkNewRecord env file :: s.records ∧
    (MedicalRecords.handleFileUpload env (some (file :: rest)) s).2
        = [Toast.success "Medical record uploaded successfully!"] ∧
    (DiagnosisNotes.handleSubmit env2 ds).1.diagnoses
        = DiagnosisNotes.diagnosisOfForm ds.formData env2.nowId env2.today :: ds.diagnoses ∧
    (DiagnosisNotes.handleSubmit env2 ds).2
        = [Toast.success "Diagnosis added successfully!"] := by
  have hlt : ¬ 10 * 1024 * 1024 < file.size := Nat.not_lt.mpr hsz
  refine ⟨?_, ?_, ?_, ?_⟩ <;>
    simp [MedicalRecords.handleFileUpload, DiagnosisNotes.handleSubmit, hty, hlt, hed]

/-- Witness for the amended C4 at a 2 MB PDF upload and a fresh diagnosis
save. -/
theorem entries_prepended_w :
    pdfFile.type ∈ MedicalRecords.allowedTypes ∧
    pdfFile.size ≤ 10 * 1024 * 1024 ∧
    dnState0.editingDiagnosis = none ∧
    ((MedicalRecords.handleFileUpload env0 (some [pdfFile]) mrState0).1.records
        = MedicalRecords.mkNewRecord env0 pdfFile :: mrState0.records ∧
      (MedicalRecords.handleFileUpload env0 (some [pdfFile]) mrState0).2
        = [Toast.success "Medical record uploaded successfully!"] ∧
      (DiagnosisNotes.handleSubmit env0 dnState0).1.diagnoses
        = DiagnosisNotes.diagnosisOfForm dnState0.formData env0.nowId env0.today
            :: dnState0.diagnoses ∧
      (DiagnosisNotes.handleSubmit env0 dnState0).2
        = [Toast.success "Diagnosis added successfully!"]) :=
  ⟨by decide, by decide, rfl,
    entries_prepended env0 env0 pdfFile [] mrState0 dnState0 (by decide) (by decide) rfl⟩

/-- Claim C6: handleDelete replaces the records list by exactly the records
whose id differs from the given one, as a pure order-preserving filter that
touches no other part of the state, and emits a success toast. -/
theorem delete_pure_filter (id : String) (s : MedicalRecords.State) :
    (MedicalRecords.handleDelete id s).1.records
        = s.records.filter (fun record => record.id != id) ∧
    List.Sublist (MedicalRecords.handleDelete id s).1.records s.records ∧
    (∀ record, record ∈ (MedicalRecords.handleDelete id s).1.records ↔
        record ∈ s.records ∧ record.id ≠ id) ∧
    (MedicalRecords.handleDelete id s).1.dragActive = s.dragActive ∧
    (MedicalRecords.handleDelete id s).1.showUploadModal = s.showUploadModal ∧
    (MedicalRecords.handleDelete id s).2 = [Toast.success "Record deleted successfully"] := by
  refine ⟨rfl, List.filter_sublist _, ?_, rfl, rfl, rfl⟩
  intro record
  simp [MedicalRecords.handleDelete, List.mem_filter]

/-- Claim C7: handlePayment schedules exactly one timer, with the fixed
delay of 2000 ms, whose callback reads no card input and unconditionally
(for every state) marks the payment complete, changes nothing else, and
emits exactly the success toast. -/
theorem payment_single_fixed_timer :
    ∃ cb : AppointmentBooking.State → AppointmentBooking.State × List Toast,
      AppointmentBooking.handlePayment = [⟨2000, cb⟩] ∧
      ∀ s, cb s = ({ s with paymentComplete := true },
          [Toast.success "Appointment booked successfully!"]) ∧
        (cb s).1.selectedDoctor = s.selectedDoctor ∧
        (cb s).1.selectedDate = s.selectedDate ∧
        (cb s).1.selectedTime = s.selectedTime ∧
        (cb s).1.showPayment = s.showPayment ∧
        (cb s).1.paymentComplete = true ∧
        (cb s).2 = [Toast.success "Appointment booked successfully!"] :=
  ⟨fun s => ({ s with paymentComplete := true },
      [Toast.success "Appointment booked successfully!"]),
    rfl, fun _ => ⟨rfl, rfl, rfl, rfl, rfl, rfl, rfl⟩⟩

/-- Claim C8: the two list filters are pure views: filteredPatients keeps
exactly the stored patients whose name, email or condition contains the
term case-insensitively, filteredDiagnoses keeps exactly the stored
diagnoses whose patientName or diagnosis does, the empty term yields the
whole stored list unchanged and in order, and each filtered list is an
order-preserving sublist of the stored one, which is never modified. -/
theorem filters_pure_views :
    (∀ term ps p, p ∈ PatientList.filteredPatients term ps ↔
        p ∈ ps ∧ (strIncludes (jsToLower p.name) (jsToLower term) = true ∨
          strIncludes (jsToLower p.email) (jsToLower term) = true ∨
          strIncludes (jsToLower p.condition) (jsToLower term) = true)) ∧
    (∀ ps, PatientList.filteredPatients "" ps = ps) ∧
    (∀ term ps, List.Sublist (PatientList.filteredPatients term ps) ps) ∧
    (∀ term ds d, d ∈ DiagnosisNotes.filteredDiagnoses term ds ↔
        d ∈ ds ∧ (strIncludes (jsToLower d.patientName) (jsToLower term) = true ∨
          strIncludes (jsToLower d.diagnosis) (jsToLower term) = true)) ∧
    (∀ ds, DiagnosisNotes.filteredDiagnoses "" ds = ds) ∧
    (∀ term ds, List.Sublist (DiagnosisNotes.filteredDiagnoses term ds) ds) := by
  refine ⟨?_, ?_, ?_, ?_, ?_, ?_⟩
  · intro term ps p
    simp [PatientList.filteredPatients, List.mem_filter, or_assoc]
  · intro ps
    simp only [PatientList.filteredPatients]
    refine List.filter_eq_self.mpr ?_
    intro p _
    simp [jsToLower_empty, strIncludes_empty]
  · intro term ps
    simp only [PatientList.filteredPatients]
    exact List.filter_sublist _
  · intro term ds d
    simp [DiagnosisNotes.filteredDiagnoses, List.mem_filter]
  · intro ds
    simp only [DiagnosisNotes.filteredDiagnoses]
    refine List.filter_eq_self.mpr ?_
    intro d _
    simp [jsToLower_empty, strIncludes_empty]
  · intro term ds
    simp only [DiagnosisNotes.filteredDiagnoses]
    exact List.filter_sublist _

/-- Claim C9: a file of exactly 10 MB with an allowed MIME type passes the
size check (which rejects only strictly larger sizes), so the record is
added in front of the list and the success toast is shown. -/
theorem upload_exact_ten_mb_accepted (env : JsEnv) (file : MedicalRecords.MedFile)
    (rest : List MedicalRecords.MedFile) (s : MedicalRecords.State)
    (hty : file.type ∈ MedicalRecords.allowedTypes)
    (hsz : file.size = 10 * 1024 * 1024) :
    MedicalRecords.handleFileUpload env (some (file :: rest)) s =
      ({ s with
          records := MedicalRecords.mkNewRecord env file :: s.records,
          showUploadModal := false },
        [Toast.success "Medical record uploaded successfully!"]) ∧
    (MedicalRecords.handleFileUpload env (some (file :: rest)) s).1.records.length
      = s.records.length + 1 := by
  have hlt : ¬ 10 * 1024 * 1024 < file.size := by
    rw [hsz]
    exact Nat.lt_irrefl _
  constructor
  · simp [MedicalRecords.handleFileUpload, hty, hlt]
  · simp [MedicalRecords.handleFileUpload, hty, hlt]

/-- Witness for C9 at a PNG file of exactly 10 MB. -/
theorem upload_exact_ten_mb_accepted_w :
    pngTenMB.type ∈ MedicalRecords.allowedTypes ∧
    pngTenMB.size = 10 * 1024 * 1024 ∧
    (MedicalRecords.handleFileUpload env0 (some [pngTenMB]) mrState0 =
      ({ mrState0 with
          records := MedicalRecords.mkNewRecord env0 pngTenMB :: mrState0.records,
          showUploadModal := false },
        [Toast.success "Medical record uploaded successfully!"]) ∧
    (MedicalRecords.handleFileUpload env0 (some [pngTenMB]) mrState0).1.records.length
      = mrState0.records.length + 1) :=
  ⟨by decide, rfl,
    upload_exact_ten_mb_accepted env0 pngTenMB [] mrState0 (by decide) rfl⟩

/-- Claim C10: for every accepted upload the stored type label is PDF
exactly when the MIME type contains the substring pdf and JPG otherwise; in
particular an accepted PNG file is labelled JPG, and no label other than
PDF or JPG ever occurs. -/
theorem upload_type_label (env : JsEnv) (file : MedicalRecords.MedFile)
    (rest : List MedicalRecords.MedFile) (s : MedicalRecords.State)
    (hty : file.type ∈ MedicalRecords.allowedTypes)
    (hsz : file.size ≤ 10 * 1024 * 1024) :
    (MedicalRecords.handleFileUpload env (some (file :: rest)) s).1.records.head?
        = some (MedicalRecords.mkNewRecord env file) ∧
    (MedicalRecords.mkNewRecord env file).type
        = (if strIncludes file.type "pdf" then "PDF" else "JPG") ∧
    (file.type = "image/png" → (MedicalRecords.mkNewRecord env file).type = "JPG") ∧
    ((MedicalRecords.mkNewRecord env file).type = "PDF" ∨
      (MedicalRecords.mkNewRecord env file).type = "JPG") := by
  have hlt : ¬ 10 * 1024 * 1024 < file.size := Nat.not_lt.mpr hsz
  refine ⟨?_, rfl, ?_, ?_⟩
  · simp [MedicalRecords.handleFileUpload, hty, hlt]
  · intro hpng
    have h : (MedicalRecords.mkNewRecord env file).type
        = (if strIncludes file.type "pdf" then "PDF" else "JPG") := rfl
    rw [h, hpng]
    decide
  · cases hb : strIncludes file.type "pdf"
    · right
      simp [MedicalRecords.mkNewRecord, hb]
    · left
      simp [MedicalRecords.mkNewRecord, hb]

/-- Witness for C10 at a PNG file of exactly 10 MB. -/
theorem upload_type_label_w :
    pngTenMB.type ∈ MedicalRecords.allowedTypes ∧
    pngTenMB.size ≤ 10 * 1024 * 1024 ∧
    ((MedicalRecords.handleFileUpload env0 (some [pngTenMB]) mrState0).1.records.head?
        = some (MedicalRecords.mkNewRecord env0 pngTenMB) ∧
    (MedicalRecords.mkNewRecord env0 pngTenMB).type
        = (if strIncludes pngTenMB.type "pdf" then "PDF" else "JPG") ∧
    (pngTenMB.type = "image/png" →
      (MedicalRecords.mkNewRecord env0 pngTenMB).type = "JPG") ∧
    ((MedicalRecords.mkNewRecord env0 pngTenMB).type = "PDF" ∨
      (MedicalRecords.mkNewRecord env0 pngTenMB).type = "JPG")) :=
  ⟨by decide, by decide,
    upload_type_label env0 pngTenMB [] mrState0 (by decide) (by decide)⟩
